import Mathlib

/-!
# Verification of the beam flexural-design computational core

Shallow embedding of the reinforcement computation core of the VIGA
application (`src/vigapp/ui/design_window.py`, `src/vigapp/ui/view3d_window.py`).
Numeric line-edit fields are modelled as `Option ℚ` (`none` = non-numeric or
missing text, the `float(...)`/`ValueError` path); quantities parsed from
combo boxes as `ℕ`; floating-point arithmetic is modelled over `ℚ` where the
source is `sqrt`-free and over `ℝ` (with `Real.sqrt`) where the source calls
`np.sqrt`.
-/

set_option maxHeartbeats 1000000

namespace Vigapp

/-- One rebar input row: quantity (combo `""`/invalid parses to 0 upstream),
diameter key (combo text), and layer number (combo items `"1"`–`"4"`). -/
structure RebarEntry where
  qty : ℕ
  dia : String
  layer : ℕ
deriving DecidableEq, Repr

/-- Modelled from the spec: the dictionary `BAR_DATA` lives in
`src/vigapp/models/constants.py`, which is not under `src/`.  The spec (§2,
§4.1) describes it as a static lookup from a nominal bar-diameter designation
to its cross-sectional area (cm²), total with fallback value 0 for unknown
keys; the keys are the combo options of `design_window.py`.  Values are the
standard catalog areas for those designations. -/
def BAR_DATA : List (String × ℚ) :=
  [("1/2\"", 129/100), ("5/8\"", 199/100), ("3/4\"", 284/100), ("1\"", 51/10)]

/-- Modelled from the spec: the dictionary `DIAM_CM` lives in
`src/vigapp/models/constants.py`, which is not under `src/`.  The spec (§8)
fixes `3/8" ↦ 0.95`, `1/2" ↦ 1.27`, `5/8" ≈ 1.59`, `3/4" ↦ 1.91`; the
remaining keys carry the standard physical diameters in cm. -/
def DIAM_CM : List (String × ℚ) :=
  [("8mm", 4/5), ("3/8\"", 19/20), ("1/2\"", 127/100), ("5/8\"", 159/100),
   ("3/4\"", 191/100), ("1\"", 127/50)]

/-- `dict.get(key, 0)` over an association list. -/
def lookup0 (l : List (String × ℚ)) (k : String) : ℚ :=
  ((l.find? (fun p => p.1 == k)).map Prod.snd).getD 0

/-- `BAR_DATA.get(dia_key, 0)`: catalog cross-sectional area of a key. -/
def bar_data (k : String) : ℚ := lookup0 BAR_DATA k

/-- `DIAM_CM.get(key, 0)`: catalog physical diameter of a key. -/
def diam_cm (k : String) : ℚ := lookup0 DIAM_CM k

/-- `n * BAR_DATA.get(dia_key, 0)`: total steel area contributed by one row. -/
def entryArea (e : RebarEntry) : ℚ := (e.qty : ℚ) * bar_data e.dia

/-- State of the design window relevant to the computation core: the parsed
line-edit fields, the two diameter combos, the six per-section rebar row
lists, and the corrected moments `mn_corr`/`mp_corr` (tonne·metre). -/
structure DesignState where
  b : Option ℚ
  h : Option ℚ
  r : Option ℚ
  fc : Option ℚ
  fy : Option ℚ
  phi : Option ℚ
  estribo : String
  varilla : String
  rows : List (List RebarEntry)
  mn : List ℝ
  mp : List ℝ

/-- One iteration of the `calc_effective_depth` scan: keep, per layer, the
largest row area seen so far (`if area > layer_areas[layer]`) together with
the diameter of the row that produced it. -/
def layerStep (st : (ℕ → ℚ) × (ℕ → ℚ)) (e : RebarEntry) : (ℕ → ℚ) × (ℕ → ℚ) :=
  if st.1 e.layer < entryArea e then
    (Function.update st.1 e.layer (entryArea e),
     Function.update st.2 e.layer (diam_cm e.dia))
  else st

/-- The `layer_areas`/`layer_diams` dictionaries of `calc_effective_depth`
after scanning all rows of all six sections (areas start at 0, diameters
start at the shared longitudinal-bar diameter `db`). -/
def layerScan (db : ℚ) (entries : List RebarEntry) : (ℕ → ℚ) × (ℕ → ℚ) :=
  entries.foldl layerStep (fun _ => 0, fun _ => db)

/-- `max_layer`: the greatest layer index in 1..4 with a nonzero recorded
area, defaulting to 1. -/
def maxLayer (A : ℕ → ℚ) : ℕ :=
  (List.range' 1 4).foldl (fun m l => if 0 < A l then max m l else m) 1

/-- `calc_effective_depth` of `design_window.py` (lines 118–181): returns 0.0
when `h` or `r` fails to parse, otherwise the layer-weighted effective depth.
The side effects (updating the `N° capas` combo and the read-only `d` field)
are dropped. -/
def calc_effective_depth (s : DesignState) : ℚ :=
  match s.h, s.r with
  | some h, some r =>
      let de := diam_cm s.estribo
      let db := diam_cm s.varilla
      let st := layerScan db s.rows.flatten
      let A := st.1
      let D := st.2
      let k := maxLayer A
      let db1 := D 1
      let d1 := h - r - de - 0.5 * db1
      if k = 1 then d1
      else
        let db2 := D 2
        let d2 := h - r - de - db1 - 2.5 - 0.5 * db2
        if k = 2 then
          (if A 1 + A 2 = 0 then d1 else (d1 * A 1 + d2 * A 2) / (A 1 + A 2))
        else
          let db3 := D 3
          let d3 := h - r - de - db1 - 2.5 - db2 - 2.5 - 0.5 * db3
          if k = 3 then
            (if A 1 + A 2 + A 3 = 0 then d1
             else (d1 * A 1 + d2 * A 2 + d3 * A 3) / (A 1 + A 2 + A 3))
          else
            let d4 := d3 - 3
            (if A 1 + A 2 + A 3 + A 4 = 0 then d1
             else (d1 * A 1 + d2 * A 2 + d3 * A 3 + d4 * A 4) / (A 1 + A 2 + A 3 + A 4))
  | _, _ => 0

/-- The layer centroid depths `d1`–`d4` of `calc_effective_depth`, as a
function of the layer index (0 outside 1–4). -/
def layer_depth (h r de : ℚ) (D : ℕ → ℚ) (i : ℕ) : ℚ :=
  let d1 := h - r - de - 0.5 * D 1
  let d2 := h - r - de - D 1 - 2.5 - 0.5 * D 2
  let d3 := h - r - de - D 1 - 2.5 - D 2 - 2.5 - 0.5 * D 3
  if i = 1 then d1 else if i = 2 then d2 else if i = 3 then d3
  else if i = 4 then d3 - 3 else 0

/-- Sum of the layer weights over layers `1..k`. -/
def weightSum (A : ℕ → ℚ) (k : ℕ) : ℚ := ((List.range' 1 k).map A).sum

/-- Weighted sum `Σ dᵢ·Aᵢ` over layers `1..k`. -/
def depthWeightedSum (A dv : ℕ → ℚ) (k : ℕ) : ℚ :=
  ((List.range' 1 k).map (fun i => dv i * A i)).sum

/-- The effective depth as the specification words it (spec §4.2 / claim C1),
for refinement comparison with `calc_effective_depth`: the weight of a layer
is the *sum* of the row areas assigned to it, and the active layer count is
the highest layer index holding any bars. -/
def spec_effective_depth (s : DesignState) : ℚ :=
  match s.h, s.r with
  | some h, some r =>
      let de := diam_cm s.estribo
      let db := diam_cm s.varilla
      let entries := s.rows.flatten
      let W : ℕ → ℚ := fun l => ((entries.filter (fun e => e.layer = l)).map entryArea).sum
      let D := (layerScan db entries).2
      let nb : ℕ → ℕ := fun l => ((entries.filter (fun e => e.layer = l)).map (fun e => e.qty)).sum
      let k := (List.range' 1 4).foldl (fun m l => if 0 < nb l then max m l else m) 1
      let dv := layer_depth h r de D
      if weightSum W k = 0 then dv 1 else depthWeightedSum W dv k / weightSum W k
  | _, _ => 0

/-- `_design_areas`: per-section provided steel area,
`Σ n * BAR_DATA.get(dia_key, 0)` over the section's rows. -/
def design_areas (s : DesignState) : List ℚ :=
  s.rows.map (fun rows => rows.foldl (fun total e => total + entryArea e) 0)

/-- One iteration of the base-width accumulation loop of `update_design_as`:
the `layers` dict holds keys 1 and 2 only (`if layer in layers`), each with a
running bar count `n` and diameter sum `sum_d`. -/
def baseStep (st : (ℚ × ℚ) × (ℚ × ℚ)) (e : RebarEntry) : (ℚ × ℚ) × (ℚ × ℚ) :=
  if e.layer = 1 then
    ((st.1.1 + (e.qty : ℚ), st.1.2 + (e.qty : ℚ) * diam_cm e.dia), st.2)
  else if e.layer = 2 then
    (st.1, (st.2.1 + (e.qty : ℚ), st.2.2 + (e.qty : ℚ) * diam_cm e.dia))
  else st

/-- The `(n, sum_d)` accumulators for layers 1 and 2 after scanning one
section's rows. -/
def baseScan (entries : List RebarEntry) : (ℚ × ℚ) × (ℚ × ℚ) :=
  entries.foldl baseStep ((0, 0), (0, 0))

/-- Required base width of one section (`update_design_as`, lines 548–584):
`max` over the layer-1 and layer-2 buckets of
`2·r + 2·de + max(n−1, 0)·2.5 + sum_d`. -/
def section_base_req (r de : ℚ) (entries : List RebarEntry) : ℚ :=
  let st := baseScan entries
  let w1 := 2 * r + 2 * de + max (st.1.1 - 1) 0 * 2.5 + st.1.2
  let w2 := 2 * r + 2 * de + max (st.2.1 - 1) 0 * 2.5 + st.2.2
  max w1 w2

/-- The `base_reqs` list accumulated by `update_design_as`: one entry per
section, empty when `r` fails to parse (every loop iteration `continue`s). -/
def base_reqs (s : DesignState) : List ℚ :=
  match s.r with
  | some r => s.rows.map (fun es => section_base_req r (diam_cm s.estribo) es)
  | none => []

/-- Python `max` over a nonempty list (0 for the empty list, on which the
source never calls it thanks to the `if base_reqs:` guard). -/
def listMax : List ℚ → ℚ
  | [] => 0
  | x :: xs => xs.foldl max x

/-- The base-check status label written by `update_design_as`: `none` when
`base_reqs` is empty (label untouched), `some ""` when `b` fails to parse,
otherwise `"OK"` iff the maximal required base does not exceed `b`. -/
def base_msg (s : DesignState) : Option String :=
  match base_reqs s with
  | [] => none
  | x :: xs =>
      let max_base := xs.foldl max x
      match s.b with
      | none => some ""
      | some b => some (if max_base ≤ b then "OK" else "Aumentar base o capa")

/-- Required base width of one section as the specification words it
(spec §4.4 / claim C5), for refinement comparison with `section_base_req`:
group the bars by layer (every layer that occurs, not just 1 and 2) and take
the maximum of `2·r + 2·de + max(n_layer−1,0)·2.5 + Σ diameters` over those
groups. -/
def spec_section_base (r de : ℚ) (entries : List RebarEntry) : ℚ :=
  let layers := (entries.map (fun e => e.layer)).dedup
  let width := fun l =>
    let n : ℚ := ((entries.filter (fun e => e.layer = l)).map (fun e => (e.qty : ℚ))).sum
    let sd : ℚ := ((entries.filter (fun e => e.layer = l)).map
      (fun e => (e.qty : ℚ) * diam_cm e.dia)).sum
    2 * r + 2 * de + max (n - 1) 0 * 2.5 + sd
  listMax (layers.map width)

/-- Row fixture appended by `_add_rebar_row` (combo defaults `"2"`, `1/2"`,
layer `"1"`). -/
def default_rebar_row : RebarEntry := ⟨2, "1/2\"", 1⟩

/-- `_add_rebar_row`: appending is a no-op once a section has 4 rows. -/
def add_rebar_row (rows : List RebarEntry) : List RebarEntry :=
  if 4 ≤ rows.length then rows else rows ++ [default_rebar_row]

/-- `_remove_rebar_row`: removing (here: the row at index `i`) is a no-op
when the section is down to its last row. -/
def remove_rebar_row (rows : List RebarEntry) (i : ℕ) : List RebarEntry :=
  if rows.length ≤ 1 then rows else rows.eraseIdx i

/-- A user action on one section's row list. -/
inductive RowOp where
  | add : RowOp
  | remove : ℕ → RowOp

/-- Apply one add/remove action. -/
def apply_row_op (rows : List RebarEntry) : RowOp → List RebarEntry
  | .add => add_rebar_row rows
  | .remove i => remove_rebar_row rows i

/-- `_collect_order` of `view3d_window.py`: the ordered diameter-key
sequence of section `idx`, one copy per bar, skipping rows with zero
quantity or a key outside `DIAM_CM`. -/
def collect_order (s : DesignState) (idx : ℕ) : List String :=
  (s.rows.getD idx []).foldl
    (fun acc e =>
      if e.qty = 0 ∨ (DIAM_CM.find? (fun p => p.1 == e.dia)).isNone then acc
      else acc ++ List.replicate e.qty e.dia) []

/-- State of the section view: the design window it reads from plus the
user-reorderable bar sequences (`neg_orders`, `pos_orders`). -/
structure ViewState where
  design : DesignState
  neg_orders : List (List String)
  pos_orders : List (List String)

/-- `swap_bars` of `view3d_window.py` (lines 237–250): swap entries `i` and
`j` of the order list of one section; regenerates empty order lists first,
and leaves everything unchanged on an invalid sign/section/index. -/
def swap_bars (vs : ViewState) (sign : String) (sec i j : ℕ) : ViewState :=
  if sign ≠ "pos" ∧ sign ≠ "neg" then vs
  else if ¬ sec < 3 then vs
  else
    let base := if sign = "pos" then vs.pos_orders else vs.neg_orders
    let orders := if base = [] then
        (List.range 3).map (fun k => collect_order vs.design (k + (if sign = "pos" then 3 else 0)))
      else base
    let lst := orders.getD sec []
    let orders' :=
      if i < lst.length ∧ j < lst.length then
        orders.set sec ((lst.set i (lst.getD j "")).set j (lst.getD i ""))
      else orders
    if sign = "pos" then { vs with pos_orders := orders' }
    else { vs with neg_orders := orders' }

/-- `move_bar` of `view3d_window.py` (lines 252–269): pop the bar at `idx`
and reinsert it at `new_idx` (clamped to the list); no-op on invalid input. -/
def move_bar (vs : ViewState) (sign : String) (sec idx new_idx : ℕ) : ViewState :=
  if sign ≠ "pos" ∧ sign ≠ "neg" then vs
  else if ¬ sec < 3 then vs
  else
    let base := if sign = "pos" then vs.pos_orders else vs.neg_orders
    let orders := if base = [] then
        (List.range 3).map (fun k => collect_order vs.design (k + (if sign = "pos" then 3 else 0)))
      else base
    let lst := orders.getD sec []
    let orders' :=
      if idx < lst.length then
        let tgt := min new_idx (lst.length - 1)
        if idx = tgt then orders
        else orders.set sec ((lst.eraseIdx idx).insertIdx tgt (lst.getD idx ""))
      else orders
    if sign = "pos" then { vs with pos_orders := orders' }
    else { vs with neg_orders := orders' }

/-- The β1 coefficient, inlined in `_calc_as_limits`:
`0.85 if fc <= 280 else 0.85 - ((fc - 280) / 70) * 0.05`. -/
noncomputable def beta1 (fc : ℝ) : ℝ :=
  if fc ≤ 280 then 0.85 else 0.85 - ((fc - 280) / 70) * 0.05

/-- `_calc_as_limits` (lines 111–116): `(as_min, as_max)`. -/
noncomputable def calc_as_limits (fc fy b d : ℝ) : ℝ × ℝ :=
  let as_min := 0.7 * (Real.sqrt fc / fy) * b * d
  let pmax := 0.75 * ((0.85 * fc * beta1 fc / fy) * (6000 / (6000 + fy)))
  (as_min, pmax * b * d)

/-- `_calc_as_req` (lines 56–64): raw required steel area for one moment,
`Mu` in tonne·metre converted to kg·cm. -/
noncomputable def calc_as_req (Mu fc b d fy phi : ℝ) : ℝ :=
  let Mu_kgcm := |Mu| * 100000
  let term := 1.7 * fc * b * d / (2 * fy)
  let root := (2.89 * (fc * b * d) ^ 2) / fy ^ 2
      - (6.8 * fc * b * Mu_kgcm) / (phi * fy ^ 2)
  term - 0.5 * Real.sqrt (max root 0)

/-- `np.clip(x, lo, hi)`. -/
noncomputable def clip (x lo hi : ℝ) : ℝ := min (max x lo) hi

/-- `_required_areas` (lines 66–93): the pair of clamped required-area lists
`(as_n, as_p)` returned to the caller; `(np.zeros(3), np.zeros(3))` when any
of `b`, `f'c`, `fy`, `φ` fails to parse. -/
noncomputable def required_areas (s : DesignState) : List ℝ × List ℝ :=
  match s.b, s.fc, s.fy, s.phi with
  | some b, some fc, some fy, some phi =>
      let d : ℝ := (calc_effective_depth s : ℚ)
      let lims := calc_as_limits (fc : ℚ) (fy : ℚ) (b : ℚ) d
      (s.mn.map (fun m => clip (calc_as_req m (fc : ℚ) (b : ℚ) d (fy : ℚ) (phi : ℚ)) lims.1 lims.2),
       s.mp.map (fun m => clip (calc_as_req m (fc : ℚ) (b : ℚ) d (fy : ℚ) (phi : ℚ)) lims.1 lims.2))
  | _, _, _, _ => (List.replicate 3 0, List.replicate 3 0)

/-! ### Concrete fixtures used by witnesses and counterexamples -/

/-- A design state with two layer-1 rows of equal area plus one layer-2 row:
the layer-1 weight used by `calc_effective_depth` (largest single row, 2.58)
differs from the spec's layer total (5.16). -/
def stateC1 : DesignState :=
  { b := some 30, h := some 50, r := some 4, fc := some 210, fy := some 4200,
    phi := some (9/10), estribo := "3/8\"", varilla := "5/8\"",
    rows := [[⟨2, "1/2\"", 1⟩, ⟨2, "1/2\"", 1⟩, ⟨2, "1/2\"", 2⟩]],
    mn := [], mp := [] }

/-- A design state whose only section keeps all its bars in layer 3: the
base-width loop of `update_design_as` ignores them. -/
def stateC5 : DesignState :=
  { b := some 30, h := some 50, r := some 4, fc := some 210, fy := some 4200,
    phi := some (9/10), estribo := "3/8\"", varilla := "5/8\"",
    rows := [[⟨2, "3/4\"", 3⟩]],
    mn := [], mp := [] }

/-- A design state with layer-1/layer-2 bars for the amended base-width
check. -/
def stateC5w : DesignState :=
  { b := some 30, h := some 50, r := some 4, fc := some 210, fy := some 4200,
    phi := some (9/10), estribo := "3/8\"", varilla := "5/8\"",
    rows := [[⟨3, "3/4\"", 1⟩], [⟨2, "5/8\"", 2⟩]],
    mn := [], mp := [] }

/-- A design state whose width field `b` holds non-numeric text. -/
noncomputable def stateC6b : DesignState :=
  { b := none, h := some 50, r := some 4, fc := some 210, fy := some 4200,
    phi := some (9/10), estribo := "3/8\"", varilla := "5/8\"",
    rows := [[⟨2, "1/2\"", 1⟩]],
    mn := [10, 2, 3], mp := [4, 5, 6] }

/-- A design state whose height field `h` holds non-numeric text. -/
noncomputable def stateC6h : DesignState :=
  { b := some 30, h := none, r := some 4, fc := some 210, fy := some 4200,
    phi := some (9/10), estribo := "3/8\"", varilla := "5/8\"",
    rows := [[⟨2, "1/2\"", 1⟩]],
    mn := [10, 2, 3], mp := [4, 5, 6] }

/-- A fully numeric design state (the §8 end-to-end scenario of the spec). -/
noncomputable def stateC8 : DesignState :=
  { b := some 30, h := some 50, r := some 4, fc := some 210, fy := some 4200,
    phi := some (9/10), estribo := "3/8\"", varilla := "5/8\"",
    rows := [[⟨2, "5/8\"", 1⟩], [⟨2, "5/8\"", 1⟩], [⟨2, "5/8\"", 1⟩],
             [⟨2, "5/8\"", 1⟩], [⟨2, "5/8\"", 1⟩], [⟨2, "5/8\"", 1⟩]],
    mn := [10, 2, 3], mp := [4, 5, 6] }

/-! ### Catalog evaluation lemmas -/

@[simp] lemma bar_data_half : bar_data "1/2\"" = 129/100 := rfl

@[simp] lemma bar_data_fiveeighth : bar_data "5/8\"" = 199/100 := rfl

@[simp] lemma bar_data_threequarter : bar_data "3/4\"" = 284/100 := rfl

@[simp] lemma diam_cm_threeeighth : diam_cm "3/8\"" = 19/20 := rfl

@[simp] lemma diam_cm_half : diam_cm "1/2\"" = 127/100 := rfl

@[simp] lemma diam_cm_fiveeighth : diam_cm "5/8\"" = 159/100 := rfl

@[simp] lemma diam_cm_threequarter : diam_cm "3/4\"" = 191/100 := rfl

/-! ### Structure lemmas for the effective-depth scan -/

lemma layerStep_fst_apply (st : (ℕ → ℚ) × (ℕ → ℚ)) (e : RebarEntry) (l : ℕ) :
    (layerStep st e).1 l
      = if e.layer = l ∧ st.1 e.layer < entryArea e then entryArea e else st.1 l := by
  unfold layerStep
  by_cases hlt : st.1 e.layer < entryArea e <;> by_cases he : e.layer = l
  · subst he; simp [hlt, Function.update_same]
  · simp [hlt, he, Function.update_noteq (fun hc => he hc.symm)]
  · subst he; simp [hlt]
  · simp [hlt, he]

lemma layerStep_snd_apply (st : (ℕ → ℚ) × (ℕ → ℚ)) (e : RebarEntry) (l : ℕ) :
    (layerStep st e).2 l
      = if e.layer = l ∧ st.1 e.layer < entryArea e then diam_cm e.dia else st.2 l := by
  unfold layerStep
  by_cases hlt : st.1 e.layer < entryArea e <;> by_cases he : e.layer = l
  · subst he; simp [hlt, Function.update_same]
  · simp [hlt, he, Function.update_noteq (fun hc => he hc.symm)]
  · subst he; simp [hlt]
  · simp [hlt, he]

lemma layerScan_area (es : List RebarEntry) (st : (ℕ → ℚ) × (ℕ → ℚ)) (l : ℕ) :
    (es.foldl layerStep st).1 l
      = ((es.filter (fun e => e.layer = l)).map entryArea).foldl max (st.1 l) := by
  induction es generalizing st with
  | nil => rfl
  | cons e es ih =>
    rw [List.foldl_cons, ih]
    by_cases he : e.layer = l
    · rw [List.filter_cons_of_pos (by simp [he]), List.map_cons, List.foldl_cons]
      congr 1
      rw [layerStep_fst_apply]
      split_ifs with hc
      · exact (max_eq_right (he ▸ hc.2.le)).symm
      · rw [not_and] at hc
        exact (max_eq_left (not_lt.mp (he ▸ hc he))).symm
    · rw [List.filter_cons_of_neg (by simp [he])]
      congr 1
      rw [layerStep_fst_apply, if_neg (fun hc => he hc.1)]

lemma layerScan_diam (es : List RebarEntry) (st : (ℕ → ℚ) × (ℕ → ℚ)) (l : ℕ) :
    ((es.foldl layerStep st).1 l = st.1 l ∧ (es.foldl layerStep st).2 l = st.2 l)
    ∨ ∃ e ∈ es, e.layer = l ∧ entryArea e = (es.foldl layerStep st).1 l
        ∧ (es.foldl layerStep st).2 l = diam_cm e.dia := by
  induction es generalizing st with
  | nil => exact Or.inl ⟨rfl, rfl⟩
  | cons e es ih =>
    rw [List.foldl_cons]
    rcases ih (layerStep st e) with ⟨h1, h2⟩ | ⟨f, hf, hfl, hfa, hfd⟩
    · rw [layerStep_fst_apply] at h1
      rw [layerStep_snd_apply] at h2
      split_ifs at h1 h2 with hcond
      · exact Or.inr ⟨e, List.mem_cons_self _ _, hcond.1, h1.symm, h2⟩
      · exact Or.inl ⟨h1, h2⟩
    · exact Or.inr ⟨f, List.mem_cons_of_mem _ hf, hfl, hfa, hfd⟩

lemma maxLayer_cases (A : ℕ → ℚ) :
    maxLayer A = 1 ∨ maxLayer A = 2 ∨ maxLayer A = 3 ∨ maxLayer A = 4 := by
  unfold maxLayer
  simp only [List.range', List.foldl]
  split_ifs <;> simp

lemma layer_depth_one (h r de : ℚ) (D : ℕ → ℚ) :
    layer_depth h r de D 1 = h - r - de - 0.5 * D 1 := rfl

lemma layer_depth_two (h r de : ℚ) (D : ℕ → ℚ) :
    layer_depth h r de D 2 = h - r - de - D 1 - 2.5 - 0.5 * D 2 := rfl

lemma layer_depth_three (h r de : ℚ) (D : ℕ → ℚ) :
    layer_depth h r de D 3 = h - r - de - D 1 - 2.5 - D 2 - 2.5 - 0.5 * D 3 := rfl

lemma layer_depth_four (h r de : ℚ) (D : ℕ → ℚ) :
    layer_depth h r de D 4 = h - r - de - D 1 - 2.5 - D 2 - 2.5 - 0.5 * D 3 - 3 := rfl

lemma weightSum_one (A : ℕ → ℚ) : weightSum A 1 = A 1 := by
  simp [weightSum, List.range']

lemma weightSum_two (A : ℕ → ℚ) : weightSum A 2 = A 1 + A 2 := by
  simp [weightSum, List.range']

lemma weightSum_three (A : ℕ → ℚ) : weightSum A 3 = A 1 + A 2 + A 3 := by
  simp [weightSum, List.range']; ring

lemma weightSum_four (A : ℕ → ℚ) : weightSum A 4 = A 1 + A 2 + A 3 + A 4 := by
  simp [weightSum, List.range']; ring

lemma depthWeightedSum_one (A dv : ℕ → ℚ) : depthWeightedSum A dv 1 = dv 1 * A 1 := by
  simp [depthWeightedSum, List.range']

lemma depthWeightedSum_two (A dv : ℕ → ℚ) :
    depthWeightedSum A dv 2 = dv 1 * A 1 + dv 2 * A 2 := by
  simp [depthWeightedSum, List.range']

lemma depthWeightedSum_three (A dv : ℕ → ℚ) :
    depthWeightedSum A dv 3 = dv 1 * A 1 + dv 2 * A 2 + dv 3 * A 3 := by
  simp [depthWeightedSum, List.range']; ring

lemma depthWeightedSum_four (A dv : ℕ → ℚ) :
    depthWeightedSum A dv 4 = dv 1 * A 1 + dv 2 * A 2 + dv 3 * A 3 + dv 4 * A 4 := by
  simp [depthWeightedSum, List.range']; ring

/-! ### C1: effective depth -/

/-- C1 (amended): for numeric `h`, `r` and rows whose layer indices lie in
1..4, the layer weight recorded by `calc_effective_depth` is the *largest
single-row* total area of that layer (the running strict-max scan), not the
sum of the row areas; the representative diameter of a layer is the diameter
of a row attaining that largest area, falling back to the shared
longitudinal-bar diameter; and the effective depth is the weighted average of
the centroid depths `d1..dk` over layers `1..max_layer` with those weights,
falling back to `d1` when the combined weight is zero. -/
theorem C1_effective_depth (s : DesignState) (h r : ℚ)
    (hh : s.h = some h) (hr : s.r = some r)
    (hl : ∀ e ∈ s.rows.flatten, 1 ≤ e.layer ∧ e.layer ≤ 4) :
    (∀ l, (layerScan (diam_cm s.varilla) s.rows.flatten).1 l
        = ((s.rows.flatten.filter (fun e => e.layer = l)).map entryArea).foldl max 0) ∧
    (∀ l, (layerScan (diam_cm s.varilla) s.rows.flatten).2 l = diam_cm s.varilla
        ∨ ∃ e ∈ s.rows.flatten, e.layer = l
            ∧ entryArea e = (layerScan (diam_cm s.varilla) s.rows.flatten).1 l
            ∧ (layerScan (diam_cm s.varilla) s.rows.flatten).2 l = diam_cm e.dia) ∧
    calc_effective_depth s =
      (if weightSum (layerScan (diam_cm s.varilla) s.rows.flatten).1
            (maxLayer (layerScan (diam_cm s.varilla) s.rows.flatten).1) = 0
       then layer_depth h r (diam_cm s.estribo) (layerScan (diam_cm s.varilla) s.rows.flatten).2 1
       else depthWeightedSum (layerScan (diam_cm s.varilla) s.rows.flatten).1
              (layer_depth h r (diam_cm s.estribo) (layerScan (diam_cm s.varilla) s.rows.flatten).2)
              (maxLayer (layerScan (diam_cm s.varilla) s.rows.flatten).1)
            / weightSum (layerScan (diam_cm s.varilla) s.rows.flatten).1
                (maxLayer (layerScan (diam_cm s.varilla) s.rows.flatten).1)) := by
  refine ⟨?_, ?_, ?_⟩
  · intro l
    exact layerScan_area s.rows.flatten (fun _ => 0, fun _ => diam_cm s.varilla) l
  · intro l
    rcases layerScan_diam s.rows.flatten (fun _ => 0, fun _ => diam_cm s.varilla) l with
      ⟨_, h2⟩ | ⟨e, he, hel, hea, hed⟩
    · exact Or.inl h2
    · exact Or.inr ⟨e, he, hel, hea, hed⟩
  · set A := (layerScan (diam_cm s.varilla) s.rows.flatten).1 with hAdef
    set D := (layerScan (diam_cm s.varilla) s.rows.flatten).2 with hDdef
    rcases maxLayer_cases A with hk | hk | hk | hk
    · simp only [calc_effective_depth, hh, hr, ← hAdef, ← hDdef, hk, weightSum_one,
        depthWeightedSum_one, layer_depth_one]
      norm_num
      split_ifs with h0
      · rfl
      · rw [mul_div_assoc, div_self h0, mul_one]
    · simp only [calc_effective_depth, hh, hr, ← hAdef, ← hDdef, hk, weightSum_two,
        depthWeightedSum_two, layer_depth_one, layer_depth_two]
      norm_num
    · simp only [calc_effective_depth, hh, hr, ← hAdef, ← hDdef, hk, weightSum_three,
        depthWeightedSum_three, layer_depth_one, layer_depth_two, layer_depth_three]
      norm_num
    · simp only [calc_effective_depth, hh, hr, ← hAdef, ← hDdef, hk, weightSum_four,
        depthWeightedSum_four, layer_depth_one, layer_depth_two, layer_depth_three,
        layer_depth_four]
      norm_num

/-- C1 counterexample: at `stateC1` (two equal layer-1 rows of 2×1/2" plus a
layer-2 row of 2×1/2") the code's effective depth, whose layer-1 weight is
the largest single row area, is 42.53, while the claimed sum-weighted average
of the spec is 5179/120 ≈ 43.158: the claim as stated is false. -/
theorem C1_effective_depth_counterexample :
    calc_effective_depth stateC1 = 4253/100 ∧
    spec_effective_depth stateC1 = 5179/120 ∧
    calc_effective_depth stateC1 ≠ spec_effective_depth stateC1 := by
  refine ⟨?_, ?_, ?_⟩ <;>
    norm_num [calc_effective_depth, spec_effective_depth, stateC1, layerScan, layerStep,
      maxLayer, entryArea, List.range', Function.update, weightSum, depthWeightedSum,
      layer_depth]

/-- C1 witness: the amended theorem instantiated at `stateC1`. -/
theorem C1_effective_depth_witness :
    (∀ e ∈ stateC1.rows.flatten, 1 ≤ e.layer ∧ e.layer ≤ 4) ∧
    calc_effective_depth stateC1 =
      (if weightSum (layerScan (diam_cm stateC1.varilla) stateC1.rows.flatten).1
            (maxLayer (layerScan (diam_cm stateC1.varilla) stateC1.rows.flatten).1) = 0
       then layer_depth 50 4 (diam_cm stateC1.estribo)
              (layerScan (diam_cm stateC1.varilla) stateC1.rows.flatten).2 1
       else depthWeightedSum (layerScan (diam_cm stateC1.varilla) stateC1.rows.flatten).1
              (layer_depth 50 4 (diam_cm stateC1.estribo)
                (layerScan (diam_cm stateC1.varilla) stateC1.rows.flatten).2)
              (maxLayer (layerScan (diam_cm stateC1.varilla) stateC1.rows.flatten).1)
            / weightSum (layerScan (diam_cm stateC1.varilla) stateC1.rows.flatten).1
                (maxLayer (layerScan (diam_cm stateC1.varilla) stateC1.rows.flatten).1)) :=
  ⟨by decide, (C1_effective_depth stateC1 50 4 rfl rfl (by decide)).2.2⟩

/-! ### C5: required base width -/

lemma baseScan_eq (es : List RebarEntry) (st : (ℚ × ℚ) × (ℚ × ℚ)) :
    es.foldl baseStep st =
      ((st.1.1 + ((es.filter (fun e => e.layer = 1)).map (fun e => (e.qty : ℚ))).sum,
        st.1.2 + ((es.filter (fun e => e.layer = 1)).map (fun e => (e.qty : ℚ) * diam_cm e.dia)).sum),
       (st.2.1 + ((es.filter (fun e => e.layer = 2)).map (fun e => (e.qty : ℚ))).sum,
        st.2.2 + ((es.filter (fun e => e.layer = 2)).map (fun e => (e.qty : ℚ) * diam_cm e.dia)).sum)) := by
  induction es generalizing st with
  | nil => simp
  | cons e es ih =>
    rw [List.foldl_cons, ih]
    by_cases h1 : e.layer = 1
    · simp only [baseStep, h1, if_pos rfl, List.filter_cons]
      norm_num
      constructor <;> ring
    · by_cases h2 : e.layer = 2
      · simp only [baseStep, h2, if_neg (by omega : ¬ e.layer = 1), if_pos rfl,
          List.filter_cons]
        simp [h1, h2]
        constructor <;> ring
      · simp only [baseStep, if_neg h1, if_neg h2, List.filter_cons]
        simp [h1, h2]

lemma section_base_req_eq (r de : ℚ) (es : List RebarEntry) :
    section_base_req r de es =
      max (2 * r + 2 * de
            + max (((es.filter (fun e => e.layer = 1)).map (fun e => (e.qty : ℚ))).sum - 1) 0 * 2.5
            + ((es.filter (fun e => e.layer = 1)).map (fun e => (e.qty : ℚ) * diam_cm e.dia)).sum)
          (2 * r + 2 * de
            + max (((es.filter (fun e => e.layer = 2)).map (fun e => (e.qty : ℚ))).sum - 1) 0 * 2.5
            + ((es.filter (fun e => e.layer = 2)).map (fun e => (e.qty : ℚ) * diam_cm e.dia)).sum) := by
  unfold section_base_req baseScan
  rw [baseScan_eq]
  norm_num

/-- C5 (amended): with numeric `r` and `b` and a nonempty section list, each
section's required base width is the maximum over the layer-1 and layer-2
buckets *only* (bars assigned to layers 3 or 4 are ignored by
`update_design_as`; an empty bucket contributes the `2r + 2de` baseline) of
`2·r + 2·de + max(n−1,0)·2.5 + Σ(qty·diameter)`; the reported required base
is the maximum across all sections, and the status label reads `"OK"` exactly
when that maximum does not exceed the width `b`, otherwise the warning
`"Aumentar base o capa"`. -/
theorem C5_base_width (s : DesignState) (r b : ℚ)
    (hr : s.r = some r) (hb : s.b = some b) (hne : s.rows ≠ []) :
    base_reqs s = s.rows.map (fun es =>
      max (2 * r + 2 * diam_cm s.estribo
            + max (((es.filter (fun e => e.layer = 1)).map (fun e => (e.qty : ℚ))).sum - 1) 0 * 2.5
            + ((es.filter (fun e => e.layer = 1)).map (fun e => (e.qty : ℚ) * diam_cm e.dia)).sum)
          (2 * r + 2 * diam_cm s.estribo
            + max (((es.filter (fun e => e.layer = 2)).map (fun e => (e.qty : ℚ))).sum - 1) 0 * 2.5
            + ((es.filter (fun e => e.layer = 2)).map (fun e => (e.qty : ℚ) * diam_cm e.dia)).sum)) ∧
    (base_msg s = some "OK" ↔ listMax (base_reqs s) ≤ b) ∧
    (base_msg s = some "OK" ∨ base_msg s = some "Aumentar base o capa") := by
  have hbr : base_reqs s = s.rows.map (fun es => section_base_req r (diam_cm s.estribo) es) := by
    unfold base_reqs
    rw [hr]
  refine ⟨?_, ?_, ?_⟩
  · rw [hbr]
    exact List.map_congr_left (fun es _ => section_base_req_eq r (diam_cm s.estribo) es)
  · cases hrows : s.rows with
    | nil => exact absurd hrows hne
    | cons es rest =>
      unfold base_msg
      rw [hbr, hrows, List.map_cons, hb]
      simp only [listMax]
      split_ifs with hle
      · simp [hle]
      · simp [hle]
  · cases hrows : s.rows with
    | nil => exact absurd hrows hne
    | cons es rest =>
      unfold base_msg
      rw [hbr, hrows, List.map_cons, hb]
      simp only [listMax]
      split_ifs <;> simp

/-- C5 counterexample: a section holding 2×3/4" bars in layer 3 (`stateC5`,
`r = 4`, 3/8" stirrup).  The claim's max-over-all-layer-groups formula gives
`2·4 + 2·0.95 + 2.5 + 2·1.91 = 16.22`, but `update_design_as` ignores layer 3
and reports only the empty-bucket baseline `9.9`: the claim as stated is
false. -/
theorem C5_base_width_counterexample :
    base_reqs stateC5 = [99/10] ∧
    spec_section_base 4 (diam_cm stateC5.estribo) [⟨2, "3/4\"", 3⟩] = 811/50 ∧
    section_base_req 4 (diam_cm stateC5.estribo) [⟨2, "3/4\"", 3⟩] ≠
      spec_section_base 4 (diam_cm stateC5.estribo) [⟨2, "3/4\"", 3⟩] := by
  refine ⟨?_, ?_, ?_⟩ <;>
    norm_num [base_reqs, stateC5, section_base_req, spec_section_base, baseScan, baseStep,
      listMax, List.dedup]

/-- C5 witness: the amended theorem instantiated at `stateC5w` (3×3/4" in
layer 1 of one section, 2×5/8" in layer 2 of another), together with the
concrete evaluation `base_msg = some "OK"` (required base 20.63 ≤ 30). -/
theorem C5_base_width_witness :
    (base_msg stateC5w = some "OK" ↔ listMax (base_reqs stateC5w) ≤ 30) ∧
    base_msg stateC5w = some "OK" ∧
    base_reqs stateC5w = [2063/100, 779/50] :=
  ⟨(C5_base_width stateC5w 4 30 rfl rfl (by decide)).2.1,
   by norm_num [base_msg, base_reqs, stateC5w, section_base_req, baseScan, baseStep, listMax],
   by norm_num [base_reqs, stateC5w, section_base_req, baseScan, baseStep]⟩

/-! ### C7: catalog totality -/

/-- C7 (confirmed): the catalog lookups are total functions; a key outside
the catalog yields area 0 and diameter 0, so unselected or bogus diameter
keys contribute zero area and zero width downstream. -/
theorem C7_catalog_total (k : String) :
    (BAR_DATA.find? (fun p => p.1 == k) = none → bar_data k = 0) ∧
    (DIAM_CM.find? (fun p => p.1 == k) = none → diam_cm k = 0) := by
  constructor <;> intro h <;> simp [bar_data, diam_cm, lookup0, h]

/-- C7 witness: the unknown key `"bogus"` and the empty key both resolve to
0 in both catalogs. -/
theorem C7_catalog_total_witness :
    BAR_DATA.find? (fun p => p.1 == "bogus") = none ∧ bar_data "bogus" = 0 ∧
    DIAM_CM.find? (fun p => p.1 == "") = none ∧ diam_cm "" = 0 :=
  ⟨rfl, (C7_catalog_total "bogus").1 rfl, rfl, (C7_catalog_total "").2 rfl⟩

/-! ### C8: reordering bars only affects the rendering -/

/-- C8 (confirmed): `swap_bars` and `move_bar` touch only the stored bar
orders, never the design state, so every permutation of a section's ordered
bar sequence leaves the required areas, the provided (design) area totals,
and the required base widths (with their status label) unchanged. -/
theorem C8_reorder_invariance (vs : ViewState) (sign : String) (sec i j idx nidx : ℕ) :
    (swap_bars vs sign sec i j).design = vs.design ∧
    (move_bar vs sign sec idx nidx).design = vs.design ∧
    required_areas ((swap_bars vs sign sec i j).design) = required_areas vs.design ∧
    design_areas ((swap_bars vs sign sec i j).design) = design_areas vs.design ∧
    base_reqs ((swap_bars vs sign sec i j).design) = base_reqs vs.design ∧
    base_msg ((swap_bars vs sign sec i j).design) = base_msg vs.design ∧
    required_areas ((move_bar vs sign sec idx nidx).design) = required_areas vs.design ∧
    design_areas ((move_bar vs sign sec idx nidx).design) = design_areas vs.design ∧
    base_reqs ((move_bar vs sign sec idx nidx).design) = base_reqs vs.design ∧
    base_msg ((move_bar vs sign sec idx nidx).design) = base_msg vs.design := by
  have hs : (swap_bars vs sign sec i j).design = vs.design := by
    unfold swap_bars
    split_ifs <;> rfl
  have hm : (move_bar vs sign sec idx nidx).design = vs.design := by
    unfold move_bar
    split_ifs <;> rfl
  exact ⟨hs, hm, by rw [hs], by rw [hs], by rw [hs], by rw [hs],
         by rw [hm], by rw [hm], by rw [hm], by rw [hm]⟩

/-! ### C9: row-list size invariant -/

lemma apply_row_op_length (rows : List RebarEntry) (op : RowOp)
    (h1 : 1 ≤ rows.length) (h4 : rows.length ≤ 4) :
    1 ≤ (apply_row_op rows op).length ∧ (apply_row_op rows op).length ≤ 4 := by
  cases op with
  | add =>
    unfold apply_row_op add_rebar_row
    split_ifs with hge
    · exact ⟨h1, h4⟩
    · rw [List.length_append]
      simp only [List.length_singleton]
      omega
  | remove i =>
    unfold apply_row_op remove_rebar_row
    split_ifs with hle
    · exact ⟨h1, h4⟩
    · rw [List.length_eraseIdx]
      split_ifs <;> omega

/-- C9 (confirmed): adding a row is a no-op on a section with 4 rows,
removing is a no-op on a section with a single row, and any sequence of
add/remove operations keeps the row count within 1..4. -/
theorem C9_row_bounds (rows : List RebarEntry) (i : ℕ) (ops : List RowOp)
    (h1 : 1 ≤ rows.length) (h4 : rows.length ≤ 4) :
    (rows.length = 4 → add_rebar_row rows = rows) ∧
    (rows.length = 1 → remove_rebar_row rows i = rows) ∧
    (1 ≤ (ops.foldl apply_row_op rows).length ∧ (ops.foldl apply_row_op rows).length ≤ 4) := by
  refine ⟨?_, ?_, ?_⟩
  · intro h
    unfold add_rebar_row
    rw [if_pos (by omega)]
  · intro h
    unfold remove_rebar_row
    rw [if_pos (by omega)]
  · induction ops generalizing rows with
    | nil => exact ⟨h1, h4⟩
    | cons op ops ih =>
      rw [List.foldl_cons]
      obtain ⟨g1, g4⟩ := apply_row_op_length rows op h1 h4
      exact ih _ g1 g4

/-- C9 witness: add on a full 4-row section and remove on a singleton are
no-ops, and add·add·remove starting from a singleton stays within 1..4. -/
theorem C9_row_bounds_witness :
    add_rebar_row [default_rebar_row, default_rebar_row, default_rebar_row, default_rebar_row]
      = [default_rebar_row, default_rebar_row, default_rebar_row, default_rebar_row] ∧
    remove_rebar_row [default_rebar_row] 0 = [default_rebar_row] ∧
    (1 ≤ (([RowOp.add, RowOp.add, RowOp.remove 0]).foldl apply_row_op [default_rebar_row]).length ∧
      (([RowOp.add, RowOp.add, RowOp.remove 0]).foldl apply_row_op [default_rebar_row]).length ≤ 4) :=
  ⟨(C9_row_bounds [default_rebar_row, default_rebar_row, default_rebar_row, default_rebar_row]
      0 [] (by decide) (by decide)).1 rfl,
   (C9_row_bounds [default_rebar_row] 0 [] (by decide) (by decide)).2.1 rfl,
   (C9_row_bounds [default_rebar_row] 0 [RowOp.add, RowOp.add, RowOp.remove 0]
      (by decide) (by decide)).2.2⟩

/-! ### C2: the raw required-area formula -/

/-- C2 (confirmed): for every signed moment `Mu` (tonne·metre) and numeric
`fc`, `b`, `d`, `fy`, `phi`, the raw required steel area equals
`term − 0.5·√(max 0 root)` with `Mu_units = |Mu|·100000`,
`term = 1.7·fc·b·d/(2·fy)` and
`root = 2.89·(fc·b·d)²/fy² − 6.8·fc·b·Mu_units/(φ·fy²)`; whenever the
radicand is negative the result equals `term` exactly. -/
theorem C2_as_req_formula (Mu fc b d fy phi : ℝ) :
    calc_as_req Mu fc b d fy phi
      = 1.7 * fc * b * d / (2 * fy)
        - 0.5 * Real.sqrt (max 0 ((2.89 * (fc * b * d) ^ 2) / fy ^ 2
            - (6.8 * fc * b * (|Mu| * 100000)) / (phi * fy ^ 2))) ∧
    ((2.89 * (fc * b * d) ^ 2) / fy ^ 2 - (6.8 * fc * b * (|Mu| * 100000)) / (phi * fy ^ 2) < 0 →
      calc_as_req Mu fc b d fy phi = 1.7 * fc * b * d / (2 * fy)) := by
  constructor
  · rw [calc_as_req, max_comm]
  · intro h
    rw [calc_as_req, max_eq_right h.le, Real.sqrt_zero, mul_zero, sub_zero]

/-- C2 witness: at `Mu = 1`, `d = 0` and unit material values the radicand is
negative and the result collapses to `term`. -/
theorem C2_as_req_formula_witness :
    ((2.89 * ((1:ℝ) * 1 * 0) ^ 2) / 1 ^ 2 - (6.8 * 1 * 1 * (|(1:ℝ)| * 100000)) / (1 * 1 ^ 2) < 0) ∧
    calc_as_req 1 1 1 0 1 1 = 1.7 * 1 * 1 * 0 / (2 * 1) :=
  ⟨by norm_num, (C2_as_req_formula 1 1 1 0 1 1).2 (by norm_num)⟩

/-! ### C3: reinforcement limits and the clamp -/

/-- C3 (amended): β1 is 0.85 for `fc ≤ 280` and `0.85 − ((fc−280)/70)·0.05`
otherwise with no further floor (so β1 = 0.80 exactly at `fc = 350`),
`As_min = 0.7·(√fc/fy)·b·d`, and
`As_max = 0.75·((0.85·fc·β1/fy)·(6000/(6000+fy)))·b·d`; the final required
area per control point is `clip(raw, As_min, As_max)`, which satisfies
`As_min ≤ result ≤ As_max` *whenever `As_min ≤ As_max`* (for inputs where
the computed `As_min` exceeds `As_max` — e.g. very small `fc` — `np.clip`
returns `As_max`, below `As_min`); the clamped lists returned by
`_required_areas` are exactly the raw `_calc_as_req` values mapped through
the clip, so raw and clamped values are both available. -/
theorem C3_limits_clip (fc fy b d raw : ℝ) (s : DesignState) :
    (fc ≤ 280 → beta1 fc = 0.85) ∧
    (280 < fc → beta1 fc = 0.85 - ((fc - 280) / 70) * 0.05) ∧
    beta1 350 = 0.80 ∧
    (calc_as_limits fc fy b d).1 = 0.7 * (Real.sqrt fc / fy) * b * d ∧
    (calc_as_limits fc fy b d).2
      = 0.75 * ((0.85 * fc * beta1 fc / fy) * (6000 / (6000 + fy))) * b * d ∧
    ((calc_as_limits fc fy b d).1 ≤ (calc_as_limits fc fy b d).2 →
      (calc_as_limits fc fy b d).1
          ≤ clip raw (calc_as_limits fc fy b d).1 (calc_as_limits fc fy b d).2 ∧
        clip raw (calc_as_limits fc fy b d).1 (calc_as_limits fc fy b d).2
          ≤ (calc_as_limits fc fy b d).2) ∧
    (∀ b' fc' fy' phi', s.b = some b' → s.fc = some fc' → s.fy = some fy' → s.phi = some phi' →
      required_areas s
        = (s.mn.map (fun m => clip
            (calc_as_req m (fc' : ℚ) (b' : ℚ) ((calc_effective_depth s : ℚ) : ℝ) (fy' : ℚ) (phi' : ℚ))
            (calc_as_limits (fc' : ℚ) (fy' : ℚ) (b' : ℚ) ((calc_effective_depth s : ℚ) : ℝ)).1
            (calc_as_limits (fc' : ℚ) (fy' : ℚ) (b' : ℚ) ((calc_effective_depth s : ℚ) : ℝ)).2),
           s.mp.map (fun m => clip
            (calc_as_req m (fc' : ℚ) (b' : ℚ) ((calc_effective_depth s : ℚ) : ℝ) (fy' : ℚ) (phi' : ℚ))
            (calc_as_limits (fc' : ℚ) (fy' : ℚ) (b' : ℚ) ((calc_effective_depth s : ℚ) : ℝ)).1
            (calc_as_limits (fc' : ℚ) (fy' : ℚ) (b' : ℚ) ((calc_effective_depth s : ℚ) : ℝ)).2))) := by
  refine ⟨?_, ?_, ?_, rfl, ?_, ?_, ?_⟩
  · intro h
    rw [beta1, if_pos h]
  · intro h
    rw [beta1, if_neg (not_le.mpr h)]
  · rw [beta1, if_neg (by norm_num)]
    norm_num
  · rfl
  · intro hle
    constructor
    · exact le_min (le_max_right _ _) hle
    · exact min_le_right _ _
  · intro b' fc' fy' phi' hb hfc hfy hphi
    simp only [required_areas, hb, hfc, hfy, hphi]

/-- C3 counterexample: at `fc = 4`, `fy = 4200`, `b = d = 1` the computed
`As_min = 0.7·(√4/4200) = 1/3000` exceeds `As_max ≈ 0.000304`, and
`np.clip(0, As_min, As_max) = As_max < As_min`: the claimed
`As_min ≤ result` fails for these numeric inputs, so the unconditional
clamp bound of the claim is false. -/
theorem C3_limits_clip_counterexample :
    ¬ ((calc_as_limits 4 4200 1 1).1
        ≤ clip 0 (calc_as_limits 4 4200 1 1).1 (calc_as_limits 4 4200 1 1).2) := by
  have h2 : Real.sqrt 4 = 2 := by
    rw [show (4:ℝ) = 2 ^ 2 by norm_num, Real.sqrt_sq (by norm_num : (0:ℝ) ≤ 2)]
  simp only [calc_as_limits, clip, beta1, if_pos (by norm_num : (4:ℝ) ≤ 280), h2]
  norm_num [min_def, max_def]

/-- C3 witness: both β1 branches, the clamp bounds at `fc = 400`
(where `√400 = 20` gives `As_min = 1/300 ≤ As_max`), and the raw-to-clamped
relation at the fully numeric state `stateC8`. -/
theorem C3_limits_clip_witness :
    beta1 210 = 0.85 ∧
    beta1 400 = 0.85 - ((400 - 280) / 70) * 0.05 ∧
    ((calc_as_limits 400 4200 1 1).1
        ≤ clip 0 (calc_as_limits 400 4200 1 1).1 (calc_as_limits 400 4200 1 1).2 ∧
      clip 0 (calc_as_limits 400 4200 1 1).1 (calc_as_limits 400 4200 1 1).2
        ≤ (calc_as_limits 400 4200 1 1).2) ∧
    required_areas stateC8
      = (stateC8.mn.map (fun m => clip
          (calc_as_req m ((210:ℚ) : ℝ) ((30:ℚ) : ℝ) ((calc_effective_depth stateC8 : ℚ) : ℝ)
            ((4200:ℚ) : ℝ) (((9/10 : ℚ)) : ℝ))
          (calc_as_limits ((210:ℚ) : ℝ) ((4200:ℚ) : ℝ) ((30:ℚ) : ℝ)
            ((calc_effective_depth stateC8 : ℚ) : ℝ)).1
          (calc_as_limits ((210:ℚ) : ℝ) ((4200:ℚ) : ℝ) ((30:ℚ) : ℝ)
            ((calc_effective_depth stateC8 : ℚ) : ℝ)).2),
         stateC8.mp.map (fun m => clip
          (calc_as_req m ((210:ℚ) : ℝ) ((30:ℚ) : ℝ) ((calc_effective_depth stateC8 : ℚ) : ℝ)
            ((4200:ℚ) : ℝ) (((9/10 : ℚ)) : ℝ))
          (calc_as_limits ((210:ℚ) : ℝ) ((4200:ℚ) : ℝ) ((30:ℚ) : ℝ)
            ((calc_effective_depth stateC8 : ℚ) : ℝ)).1
          (calc_as_limits ((210:ℚ) : ℝ) ((4200:ℚ) : ℝ) ((30:ℚ) : ℝ)
            ((calc_effective_depth stateC8 : ℚ) : ℝ)).2)) :=
  ⟨(C3_limits_clip 210 4200 1 1 0 stateC8).1 (by norm_num),
   (C3_limits_clip 400 4200 1 1 0 stateC8).2.1 (by norm_num),
   (C3_limits_clip 400 4200 1 1 0 stateC8).2.2.2.2.2.1 (by
      have h400 : Real.sqrt 400 = 20 := by
        rw [show (400:ℝ) = 20 ^ 2 by norm_num, Real.sqrt_sq (by norm_num : (0:ℝ) ≤ 20)]
      simp only [calc_as_limits, beta1, if_neg (by norm_num : ¬ (400:ℝ) ≤ 280), h400]
      norm_num),
   (C3_limits_clip 400 4200 1 1 0 stateC8).2.2.2.2.2.2 30 210 4200 (9/10) rfl rfl rfl rfl⟩

/-! ### C4: monotonicity in the moment -/

/-- C4 (confirmed): for fixed positive `b`, `d`, `fc`, `fy`, `φ` the raw
required area is monotonically non-decreasing in `|moment|`, and once
`|moment|` is large enough for the radicand to reach 0 it stays constant at
`term = 1.7·fc·b·d/(2·fy)` for all larger `|moment|`. -/
theorem C4_as_req_monotone (fc b d fy phi M1 M2 : ℝ)
    (hfc : 0 < fc) (hb : 0 < b) (hd : 0 < d) (hfy : 0 < fy) (hphi : 0 < phi)
    (hM : |M1| ≤ |M2|) :
    calc_as_req M1 fc b d fy phi ≤ calc_as_req M2 fc b d fy phi ∧
    ((2.89 * (fc * b * d) ^ 2) / fy ^ 2 - (6.8 * fc * b * (|M1| * 100000)) / (phi * fy ^ 2) ≤ 0 →
      calc_as_req M2 fc b d fy phi = 1.7 * fc * b * d / (2 * fy)) := by
  have hsub : (6.8 * fc * b * (|M1| * 100000)) / (phi * fy ^ 2)
      ≤ (6.8 * fc * b * (|M2| * 100000)) / (phi * fy ^ 2) := by
    gcongr
  have hroot : (2.89 * (fc * b * d) ^ 2) / fy ^ 2 - (6.8 * fc * b * (|M2| * 100000)) / (phi * fy ^ 2)
      ≤ (2.89 * (fc * b * d) ^ 2) / fy ^ 2 - (6.8 * fc * b * (|M1| * 100000)) / (phi * fy ^ 2) := by
    linarith
  constructor
  · rw [calc_as_req, calc_as_req]
    have hmax : max ((2.89 * (fc * b * d) ^ 2) / fy ^ 2
          - (6.8 * fc * b * (|M2| * 100000)) / (phi * fy ^ 2)) 0
        ≤ max ((2.89 * (fc * b * d) ^ 2) / fy ^ 2
          - (6.8 * fc * b * (|M1| * 100000)) / (phi * fy ^ 2)) 0 :=
      max_le_max hroot le_rfl
    have := Real.sqrt_le_sqrt hmax
    linarith
  · intro h
    rw [calc_as_req, max_eq_right (by linarith), Real.sqrt_zero, mul_zero, sub_zero]

/-- C4 witness: at unit parameters, `|1| ≤ |2|`, the radicand at `M1 = 1` is
already negative, and the area at `M2 = 2` equals `term`. -/
theorem C4_as_req_monotone_witness :
    |(1:ℝ)| ≤ |(2:ℝ)| ∧
    ((2.89 * ((1:ℝ) * 1 * 1) ^ 2) / 1 ^ 2 - (6.8 * 1 * 1 * (|(1:ℝ)| * 100000)) / (1 * 1 ^ 2) ≤ 0) ∧
    calc_as_req 1 1 1 1 1 1 ≤ calc_as_req 2 1 1 1 1 1 ∧
    calc_as_req 2 1 1 1 1 1 = 1.7 * 1 * 1 * 1 / (2 * 1) :=
  ⟨by norm_num, by norm_num,
   (C4_as_req_monotone 1 1 1 1 1 1 2 (by norm_num) (by norm_num) (by norm_num) (by norm_num)
      (by norm_num) (by norm_num)).1,
   (C4_as_req_monotone 1 1 1 1 1 1 2 (by norm_num) (by norm_num) (by norm_num) (by norm_num)
      (by norm_num) (by norm_num)).2 (by norm_num)⟩

/-! ### C6: non-numeric input degrades to zero -/

/-- C6 (confirmed): if `b`, `f'c`, `fy` or `φ` fails to parse,
`_required_areas` returns `(np.zeros(3), np.zeros(3))`; if `h` or `r` fails
to parse, `calc_effective_depth` returns 0 and every required area of the
pass is 0 as well (through `d = 0` the limits collapse to `[0, 0]` and the
clip pins every entry to 0). -/
theorem C6_missing_input_zeroes (s : DesignState) :
    ((s.b = none ∨ s.fc = none ∨ s.fy = none ∨ s.phi = none) →
        required_areas s = (List.replicate 3 0, List.replicate 3 0)) ∧
    ((s.h = none ∨ s.r = none) →
        calc_effective_depth s = 0 ∧
        (∀ x ∈ (required_areas s).1, x = 0) ∧ (∀ x ∈ (required_areas s).2, x = 0)) := by
  obtain ⟨b, h, r, fc, fy, phi, es, va, rows, mn, mp⟩ := s
  have hzero : ∀ (v lo hi : ℝ), lo = 0 → hi = 0 → clip v lo hi = 0 := by
    intro v lo hi hlo hhi
    rw [hlo, hhi]
    exact min_eq_right (le_max_right _ _)
  constructor
  · rintro (hn | hn | hn | hn) <;> simp only at hn <;> subst hn
    · rfl
    · cases b <;> rfl
    · cases b <;> cases fc <;> rfl
    · cases b <;> cases fc <;> cases fy <;> rfl
  · rintro (hn | hn) <;> simp only at hn <;> subst hn
    · have hd : calc_effective_depth
          ⟨b, none, r, fc, fy, phi, es, va, rows, mn, mp⟩ = 0 := rfl
      refine ⟨hd, ?_, ?_⟩ <;>
        · intro x hx
          cases b with
          | none => simpa [required_areas] using hx
          | some bv =>
            cases fc with
            | none => simpa [required_areas] using hx
            | some fcv =>
              cases fy with
              | none => simpa [required_areas] using hx
              | some fyv =>
                cases phi with
                | none => simpa [required_areas] using hx
                | some phiv =>
                  simp only [required_areas, List.mem_map] at hx
                  obtain ⟨m, hm, hx⟩ := hx
                  rw [← hx, hd]
                  exact hzero _ _ _ (by norm_num [calc_as_limits]) (by norm_num [calc_as_limits])
    · have hd : calc_effective_depth
          ⟨b, h, none, fc, fy, phi, es, va, rows, mn, mp⟩ = 0 := by
        cases h <;> rfl
      refine ⟨hd, ?_, ?_⟩ <;>
        · intro x hx
          cases b with
          | none => simpa [required_areas] using hx
          | some bv =>
            cases fc with
            | none => simpa [required_areas] using hx
            | some fcv =>
              cases fy with
              | none => simpa [required_areas] using hx
              | some fyv =>
                cases phi with
                | none => simpa [required_areas] using hx
                | some phiv =>
                  simp only [required_areas, List.mem_map] at hx
                  obtain ⟨m, hm, hx⟩ := hx
                  rw [← hx, hd]
                  exact hzero _ _ _ (by norm_num [calc_as_limits]) (by norm_num [calc_as_limits])

/-- C6 witness: a state with non-numeric `b` returns the zero arrays, and a
state with non-numeric `h` yields depth 0 and all-zero required areas. -/
theorem C6_missing_input_zeroes_witness :
    required_areas stateC6b = (List.replicate 3 0, List.replicate 3 0) ∧
    calc_effective_depth stateC6h = 0 ∧
    (∀ x ∈ (required_areas stateC6h).1, x = 0) ∧
    (∀ x ∈ (required_areas stateC6h).2, x = 0) :=
  ⟨(C6_missing_input_zeroes stateC6b).1 (Or.inl rfl),
   ((C6_missing_input_zeroes stateC6h).2 (Or.inl rfl)).1,
   ((C6_missing_input_zeroes stateC6h).2 (Or.inl rfl)).2.1,
   ((C6_missing_input_zeroes stateC6h).2 (Or.inl rfl)).2.2⟩

/-! ### C10: range of the raw required area -/

/-- C10 (confirmed): for every real `Mu` and strictly positive `fc`, `b`,
`d`, `fy`, `φ`, the raw required area lies in `[0, term]` with
`term = 1.7·fc·b·d/(2·fy)` — the clamped square root never exceeds
`1.7·fc·b·d/fy` — and it equals 0 exactly when `Mu = 0`. -/
theorem C10_as_req_range (Mu fc b d fy phi : ℝ) (hfc : 0 < fc) (hb : 0 < b) (hd : 0 < d)
    (hfy : 0 < fy) (hphi : 0 < phi) :
    0 ≤ calc_as_req Mu fc b d fy phi ∧
    calc_as_req Mu fc b d fy phi ≤ 1.7 * fc * b * d / (2 * fy) ∧
    (calc_as_req Mu fc b d fy phi = 0 ↔ Mu = 0) := by
  have hK : 0 < fc * b * d := by positivity
  have hKfy : 0 < 1.7 * (fc * b * d) / fy := by positivity
  have hfy' : fy ≠ 0 := hfy.ne'
  have hR0 : (2.89 * (fc * b * d) ^ 2) / fy ^ 2 = (1.7 * (fc * b * d) / fy) ^ 2 := by
    field_simp
    ring
  have hsub : 0 ≤ (6.8 * fc * b * (|Mu| * 100000)) / (phi * fy ^ 2) := by positivity
  set root := (2.89 * (fc * b * d) ^ 2) / fy ^ 2
      - (6.8 * fc * b * (|Mu| * 100000)) / (phi * fy ^ 2) with hrootdef
  have hroot_le : root ≤ (1.7 * (fc * b * d) / fy) ^ 2 := by
    rw [hrootdef, ← hR0]
    linarith
  have hmax_le : max root 0 ≤ (1.7 * (fc * b * d) / fy) ^ 2 :=
    max_le hroot_le (by positivity)
  have hsqrt_nonneg := Real.sqrt_nonneg (max root 0)
  have hsqrt_le : Real.sqrt (max root 0) ≤ 1.7 * (fc * b * d) / fy := by
    calc Real.sqrt (max root 0) ≤ Real.sqrt ((1.7 * (fc * b * d) / fy) ^ 2) :=
          Real.sqrt_le_sqrt hmax_le
      _ = 1.7 * (fc * b * d) / fy := Real.sqrt_sq hKfy.le
  have hterm : 1.7 * fc * b * d / (2 * fy) = 0.5 * (1.7 * (fc * b * d) / fy) := by
    field_simp
    ring
  have hcalc : calc_as_req Mu fc b d fy phi
      = 1.7 * fc * b * d / (2 * fy) - 0.5 * Real.sqrt (max root 0) := by
    simp only [calc_as_req]
  refine ⟨?_, ?_, ?_⟩
  · rw [hcalc, hterm]
    linarith
  · rw [hcalc]
    linarith
  · rw [hcalc, hterm]
    constructor
    · intro h0
      have hs : Real.sqrt (max root 0) = 1.7 * (fc * b * d) / fy := by linarith
      have hm : max root 0 = (1.7 * (fc * b * d) / fy) ^ 2 := by
        have hmnn : 0 ≤ max root 0 := le_max_right _ _
        have hsq := Real.sq_sqrt hmnn
        rw [hs] at hsq
        exact hsq.symm
      have hrooteq : root = (1.7 * (fc * b * d) / fy) ^ 2 := by
        rcases le_or_lt root 0 with hr | hr
        · exfalso
          rw [max_eq_right hr] at hm
          nlinarith
        · rw [max_eq_left hr.le] at hm
          exact hm
      have hsub0 : (6.8 * fc * b * (|Mu| * 100000)) / (phi * fy ^ 2) = 0 := by
        have hx : (2.89 * (fc * b * d) ^ 2) / fy ^ 2
            - (6.8 * fc * b * (|Mu| * 100000)) / (phi * fy ^ 2)
            = (1.7 * (fc * b * d) / fy) ^ 2 := by
          rw [← hrootdef]
          exact hrooteq
        rw [hR0] at hx
        linarith
      have hden : (0:ℝ) < phi * fy ^ 2 := by positivity
      have hnum : 6.8 * fc * b * (|Mu| * 100000) = 0 := by
        rcases div_eq_zero_iff.mp hsub0 with hh | hh
        · exact hh
        · exact absurd hh hden.ne'
      have habs : |Mu| = 0 := by
        have hpos : (0:ℝ) < 6.8 * fc * b * 100000 := by positivity
        nlinarith [abs_nonneg Mu]
      exact abs_eq_zero.mp habs
    · intro h0
      subst h0
      have hr : root = (1.7 * (fc * b * d) / fy) ^ 2 := by
        rw [hrootdef, ← hR0]
        simp
      rw [max_eq_left (by rw [hr]; positivity), hr, Real.sqrt_sq hKfy.le]
      linarith

/-- C10 witness: at unit parameters and `Mu = 0` the raw area is 0 and the
bounds hold. -/
theorem C10_as_req_range_witness :
    (0:ℝ) < 1 ∧
    (0 ≤ calc_as_req 0 1 1 1 1 1 ∧
      calc_as_req 0 1 1 1 1 1 ≤ 1.7 * 1 * 1 * 1 / (2 * 1) ∧
      (calc_as_req 0 1 1 1 1 1 = 0 ↔ (0:ℝ) = 0)) :=
  ⟨by norm_num,
   C10_as_req_range 0 1 1 1 1 1 (by norm_num) (by norm_num) (by norm_num) (by norm_num)
     (by norm_num)⟩

end Vigapp
